import Mathlib

/-!
Verification of the LazorKit starter guide's authentication view controller
(`PasskeyAuthFlow`): a three-state UI state machine driven by an external
wallet capability, in two variants:

* the base variant (component `passkey-auth-flow.tsx`): local `loginStep`
  state reconciled from the external `isConnected` flag;
* the session-mirroring variant (session persistence tutorial): additionally
  keeps a `storedWallet` record mirrored into per-tab `sessionStorage` under
  the key `"wallet"`.

The embedding below translates the component's state, effects and handlers
into pure functions over an explicit state record.  Asynchronous handlers are
modelled by the sequence of `setLoginStep` calls they issue (a `List
LoginStep` trace) together with the resulting state; calls to the external
`connect` / `disconnect` capabilities and `console.error` logging are counted
in the state.
-/

namespace LazorKitGuide

/-- The component's local UI state: `"idle" | "connecting" | "connected"`. -/
inductive LoginStep where
  | idle
  | connecting
  | connected
deriving DecidableEq, Repr

/-- The live wallet object from `useWallet()`; the component only reads its
`smartWallet` field (a string that may be absent). -/
structure Wallet where
  smartWallet : Option String
deriving DecidableEq, Repr

/-- The session snapshot record the component stores: `\x7b smartWallet?:
string; smartWalletPubkey?: string \x7d` (both fields optional). -/
structure StoredWallet where
  smartWallet : Option String
  smartWalletPubkey : Option String
deriving DecidableEq, Repr

/-- Result of an awaited `connect()` call: it either resolves or rejects. -/
inductive ConnectResult where
  | success
  | failure
deriving DecidableEq, Repr

/-! ### JavaScript truthiness and the `||` fallback chain -/

/-- JS `a || b` on optional strings: `a` wins iff it is present and non-empty
(`undefined` and `""` are falsy). -/
def jsOrStr (a b : Option String) : Option String :=
  match a with
  | some s => if s.isEmpty then b else some s
  | none => b

/-- JS `a || d` with a string literal default `d`. -/
def jsOrDefault (a : Option String) (d : String) : String :=
  match a with
  | some s => if s.isEmpty then d else s
  | none => d

/-- Base variant identity display:
`wallet?.smartWallet || smartWalletPubkey?.toString() || "Loading..."`.
`smartWalletPubkey?.toString()` is modelled as an optional string. -/
def displayedIdentityBase (wallet : Option Wallet)
    (smartWalletPubkey : Option String) : String :=
  jsOrDefault (jsOrStr (wallet.bind Wallet.smartWallet) smartWalletPubkey)
    "Loading..."

/-- Session variant identity display:
`storedWallet?.smartWallet || wallet?.smartWallet ||
 smartWalletPubkey?.toString() || "Loading..."`. -/
def displayedIdentity (storedWallet : Option StoredWallet)
    (wallet : Option Wallet) (smartWalletPubkey : Option String) : String :=
  jsOrDefault
    (jsOrStr
      (jsOrStr (storedWallet.bind StoredWallet.smartWallet)
        (wallet.bind Wallet.smartWallet))
      smartWalletPubkey)
    "Loading..."

/-- First element of a list of optional strings that is present, ignoring
presence of content: the spec's literal "first present (non-absent) value"
reading of the fallback chain, used to compare against the code's
truthiness-based chain. -/
def firstPresent : List (Option String) → Option String
  | [] => none
  | some s :: _ => some s
  | none :: rest => firstPresent rest

/-- First element of a list of optional strings that is present AND non-empty
(JS-truthy); characterises what the code's `||` chain actually selects. -/
def firstTruthy : List (Option String) → Option String
  | [] => none
  | some s :: rest => if s.isEmpty then firstTruthy rest else some s
  | none :: rest => firstTruthy rest

/-! ### JSON serialisation of the stored record

The component stores `JSON.stringify(walletData)` and reads it back with
`JSON.parse`.  `stringifyWallet` reproduces `JSON.stringify` on this record
(fields holding `undefined` are omitted).  `parseWallet` models `JSON.parse`
restricted to the flat string-field object shape this component ever stores;
inputs outside that shape are a parse failure, as `JSON.parse` likewise fails
on non-JSON text such as `"oops"`. -/

def dquoteC : Char := Char.ofNat 34

def bslashC : Char := Char.ofNat 92

def lbraceC : Char := Char.ofNat 123

def rbraceC : Char := Char.ofNat 125

def jsonQuote (s : String) : String :=
  String.singleton dquoteC ++ s ++ String.singleton dquoteC

/-- `JSON.stringify` of a stored-wallet record: absent (`undefined`) fields
are omitted, present fields appear in declaration order. -/
def stringifyWallet (w : StoredWallet) : String :=
  let fields :=
    (match w.smartWallet with
      | some a => [jsonQuote "smartWallet" ++ ":" ++ jsonQuote a]
      | none => []) ++
    (match w.smartWalletPubkey with
      | some p => [jsonQuote "smartWalletPubkey" ++ ":" ++ jsonQuote p]
      | none => [])
  String.singleton lbraceC ++ String.intercalate "," fields
    ++ String.singleton rbraceC

/-- Scan a JSON string body up to its closing quote; escape sequences are
outside the stored shape and rejected. -/
def scanStr : List Char → Option (String × List Char)
  | [] => none
  | c :: cs =>
    if c = dquoteC then some ("", cs)
    else if c = bslashC then none
    else
      match scanStr cs with
      | some (s, rest) => some (String.singleton c ++ s, rest)
      | none => none

/-- Parse one `"key":"value"` member. -/
def parseMember (cs : List Char) : Option ((String × String) × List Char) :=
  match cs with
  | c :: cs1 =>
    if c = dquoteC then
      match scanStr cs1 with
      | some (k, rest) =>
        match rest with
        | ':' :: c2 :: cs2 =>
          if c2 = dquoteC then
            match scanStr cs2 with
            | some (v, rest2) => some ((k, v), rest2)
            | none => none
          else none
        | _ => none
      | none => none
    else none
  | [] => none

/-- Parse a non-empty comma-separated member list (fuel-bounded). -/
def parseMembers : Nat → List Char → Option (List (String × String) × List Char)
  | 0, _ => none
  | n + 1, cs =>
    match parseMember cs with
    | none => none
    | some (p, rest) =>
      match rest with
      | ',' :: cs2 =>
        match parseMembers n cs2 with
        | some (ps, r) => some (p :: ps, r)
        | none => none
      | _ => some ([p], rest)

/-- Property access on the parsed object: an absent key reads as absent. -/
def lookupField (ps : List (String × String)) (k : String) : Option String :=
  (ps.find? (fun p => p.1 == k)).map Prod.snd

/-- `JSON.parse` restricted to flat objects with string fields, returning the
stored-wallet view of the parsed object; `none` is a parse failure (a thrown
`SyntaxError` in the source). -/
def parseWallet (s : String) : Option StoredWallet :=
  match s.toList with
  | c :: cs =>
    if c = lbraceC then
      if cs = [rbraceC] then some ⟨none, none⟩
      else
        match parseMembers cs.length cs with
        | some (ps, rest) =>
          if rest = [rbraceC] then
            some ⟨lookupField ps "smartWallet",
                  lookupField ps "smartWalletPubkey"⟩
          else none
        | none => none
    else none
  | [] => none

/-! ### Controller state and operations -/

/-- State of the session-mirroring variant: the `loginStep` and
`storedWallet` React state, the raw `sessionStorage` record under key
`"wallet"`, and counters for external-capability calls and logged errors. -/
structure SState where
  loginStep : LoginStep
  storedWallet : Option StoredWallet
  storage : Option String
  connectCalls : Nat
  disconnectCalls : Nat
  loggedErrors : Nat
deriving DecidableEq, Repr

/-- State of the base variant (no session mirroring, no storage). -/
structure BState where
  loginStep : LoginStep
  connectCalls : Nat
  disconnectCalls : Nat
  loggedErrors : Nat
deriving DecidableEq, Repr

/-- Base variant sync `useEffect` body: `if (isConnected)
setLoginStep("connected") else setLoginStep("idle")`. -/
def syncEffectBase (isConnected : Bool) : LoginStep :=
  if isConnected then .connected else .idle

/-- One reconciliation step of the base variant. -/
def runSyncBase (isConnected : Bool) (b : BState) : BState :=
  { b with loginStep := syncEffectBase isConnected }

/-- Session variant sync `useEffect` body: `if (isConnected || storedWallet)
setLoginStep("connected") else setLoginStep("idle")`. -/
def syncEffect (isConnected : Bool) (storedWallet : Option StoredWallet) :
    LoginStep :=
  if isConnected || storedWallet.isSome then .connected else .idle

/-- One reconciliation step of the session variant (re-run on every change of
`isConnected` or `storedWallet`). -/
def runSync (isConnected : Bool) (s : SState) : SState :=
  { s with loginStep := syncEffect isConnected s.storedWallet }

/-- Mount-time snapshot-load `useEffect`: reads `sessionStorage.getItem
("wallet")`; a truthy result is fed to `JSON.parse` with no surrounding
try/catch, so a parse failure propagates out of the effect as an error. -/
def snapshotLoad (s : SState) : Except String SState :=
  match s.storage with
  | none => .ok s
  | some raw =>
    if raw.isEmpty then .ok s
    else
      match parseWallet raw with
      | some w => .ok { s with storedWallet := some w }
      | none => .error "JSON.parse: unexpected token"

/-- Snapshot-write `useEffect` (runs on changes of `isConnected`, `wallet`,
`smartWalletPubkey`): when `isConnected && wallet`, builds `walletData` from
`wallet.smartWallet` and `smartWalletPubkey?.toString()`, writes its
`JSON.stringify` to storage and mirrors it into `storedWallet`. -/
def snapshotWrite (isConnected : Bool) (wallet : Option Wallet)
    (smartWalletPubkey : Option String) (s : SState) : SState :=
  match wallet with
  | some w =>
    if isConnected then
      let walletData : StoredWallet := ⟨w.smartWallet, smartWalletPubkey⟩
      { s with storage := some (stringifyWallet walletData),
               storedWallet := some walletData }
    else s
  | none => s

/-- Session variant `handleLogin`: a held `storedWallet` short-circuits to
`"connected"`; otherwise set `"connecting"`, await `connect()`, and on
rejection log the error and reset to `"idle"` (the rejection is caught, never
re-thrown, and not retried).  Returns the trace of `setLoginStep` calls and
the resulting state. -/
def handleLogin (s : SState) (r : ConnectResult) : List LoginStep × SState :=
  if s.storedWallet.isSome then
    ([.connected], { s with loginStep := .connected })
  else
    match r with
    | .success =>
      ([.connecting],
        { s with loginStep := .connecting, connectCalls := s.connectCalls + 1 })
    | .failure =>
      ([.connecting, .idle],
        { s with loginStep := .idle, connectCalls := s.connectCalls + 1,
                 loggedErrors := s.loggedErrors + 1 })

/-- Base variant `handleLogin`: no precondition check at all. -/
def handleLoginBase (b : BState) (r : ConnectResult) :
    List LoginStep × BState :=
  match r with
  | .success =>
    ([.connecting],
      { b with loginStep := .connecting, connectCalls := b.connectCalls + 1 })
  | .failure =>
    ([.connecting, .idle],
      { b with loginStep := .idle, connectCalls := b.connectCalls + 1,
               loggedErrors := b.loggedErrors + 1 })

/-- Session variant `handleLogout`: `await disconnect()` then unconditionally
`setLoginStep("idle")`; it touches neither `storedWallet` nor storage. -/
def handleLogout (s : SState) : SState :=
  { s with loginStep := .idle, disconnectCalls := s.disconnectCalls + 1 }

/-- Base variant `handleLogout`. -/
def handleLogoutBase (b : BState) : BState :=
  { b with loginStep := .idle, disconnectCalls := b.disconnectCalls + 1 }

end LazorKitGuide

namespace LazorKitGuide

/-! ### Helper lemmas -/

/-- A three-link JS `||` chain with a literal default selects the first
present-and-non-empty (truthy) operand, or the default. -/
theorem jsChain_eq_firstTruthy (a b c : Option String) :
    jsOrDefault (jsOrStr (jsOrStr a b) c) "Loading..." =
      (firstTruthy [a, b, c]).getD "Loading..." := by
  rcases a with _ | a <;> rcases b with _ | b <;> rcases c with _ | c <;>
    simp only [jsOrStr, jsOrDefault, firstTruthy, Option.getD] <;>
    (try split_ifs) <;> first | rfl | simp_all

/-- The snapshot-load effect only reads storage (whether it succeeds or
faults); it never writes the stored record back. -/
theorem snapshotLoad_preserves_storage (s : SState) :
    (snapshotLoad s).map SState.storage
      = (snapshotLoad s).map (fun _ => s.storage) := by
  unfold snapshotLoad
  rcases hs : s.storage with _ | raw
  · simp [Except.map, hs]
  · by_cases hE : raw.isEmpty
    · simp [Except.map, hs, hE]
    · rcases hp : parseWallet raw with _ | w <;> simp [Except.map, hs, hE, hp]

/-! ### Claim theorems -/

/-- C1: after every reconciliation step (the sync effect, re-run on every
change of the external `isConnected` flag or of the stored snapshot), if the
external flag reports connected the displayed state is `connected`, and if it
reports not-connected with no restored snapshot present the displayed state
is `idle` — regardless of the controller's previous transient state, in both
the session-mirroring and the base variant. -/
theorem c1_reconciliation_invariant (s : SState) (b : BState) :
    (runSync true s).loginStep = LoginStep.connected ∧
    (runSync false { s with storedWallet := none }).loginStep
      = LoginStep.idle ∧
    (runSyncBase true b).loginStep = LoginStep.connected ∧
    (runSyncBase false b).loginStep = LoginStep.idle :=
  ⟨rfl, rfl, rfl, rfl⟩

/-- C2 counterexample: the claim says the first PRESENT source wins, but with
a present-yet-empty snapshot address (`""` is present but JS-falsy) the code
displays the second source `"A2"`, not the first present value `""`. -/
theorem c2_counterexample :
    displayedIdentity (some ⟨some "", none⟩) (some ⟨some "A2"⟩) (some "A3")
      = "A2" ∧
    firstPresent [some "", some "A2", some "A3"] = some "" ∧
    ("A2" : String) ≠ "" :=
  ⟨by decide, by decide, by decide⟩

/-- C2 (amended): for every render of the connected view, the displayed
identity is the first present AND non-empty (JS-truthy) value of, in fixed
order, the snapshot's address field, the live wallet's address field, the
live public key's string form, else the literal `"Loading..."`; exactly one
source wins.  The spec's concrete scenario (`"A1"`/`"A2"`/`"A3"` with sources
removed one by one) is included. -/
theorem c2_identity_fallback_chain (storedWallet : Option StoredWallet)
    (wallet : Option Wallet) (smartWalletPubkey : Option String) :
    displayedIdentity storedWallet wallet smartWalletPubkey
      = (firstTruthy [storedWallet.bind StoredWallet.smartWallet,
          wallet.bind Wallet.smartWallet, smartWalletPubkey]).getD
          "Loading..." ∧
    displayedIdentity (some ⟨some "A1", none⟩) (some ⟨some "A2"⟩) (some "A3")
      = "A1" ∧
    displayedIdentity none (some ⟨some "A2"⟩) (some "A3") = "A2" ∧
    displayedIdentity none none (some "A3") = "A3" ∧
    displayedIdentity none none none = "Loading..." :=
  ⟨jsChain_eq_firstTruthy _ _ _, by decide, by decide, by decide, by decide⟩

/-- C3 counterexample: in the session-mirroring variant, from a connected
state holding a snapshot, logout sets the view to `idle` but the very next
reconciliation step (external flag now false) puts the displayed state back
at `connected` — logout does leave the view stuck at `connected`. -/
theorem c3_counterexample :
    (runSync false (handleLogout
        ⟨LoginStep.connected, some ⟨some "A1", some "P1"⟩,
          some (stringifyWallet ⟨some "A1", some "P1"⟩), 1, 0, 0⟩)).loginStep
      = LoginStep.connected := by decide

/-- C3 (amended): invoking logout calls the external disconnect capability
(exactly once) and then unconditionally sets the displayed state to `idle`,
in both variants.  In the base variant subsequent reconciliation with the
flag now false keeps the view at `idle`; in the session-mirroring variant a
held snapshot forces the next reconciliation back to `connected`, so logout
does not durably reset the view there. -/
theorem c3_logout_resets_view (s : SState) (b : BState) (w : StoredWallet) :
    (handleLogout s).loginStep = LoginStep.idle ∧
    (handleLogout s).disconnectCalls = s.disconnectCalls + 1 ∧
    (handleLogoutBase b).loginStep = LoginStep.idle ∧
    (handleLogoutBase b).disconnectCalls = b.disconnectCalls + 1 ∧
    (runSyncBase false (handleLogoutBase b)).loginStep = LoginStep.idle ∧
    (runSync false (handleLogout { s with storedWallet := some w })).loginStep
      = LoginStep.connected :=
  ⟨rfl, rfl, rfl, rfl, rfl, rfl⟩

/-- C4: a connect call that rejects drives the displayed state
`idle → connecting → idle` (the trace of `setLoginStep` calls from an idle
start is `[connecting, idle]`), the error is logged and not re-thrown
(`handleLogin` is total and bumps the log counter), exactly one connect
request is issued (no retry), and no snapshot is written during the failed
attempt: the handler leaves storage untouched and the write effect, re-run
with the flag still false, writes nothing.  Both variants are covered. -/
theorem c4_connect_failure_resets (s : SState) (b : BState)
    (wallet : Option Wallet) (smartWalletPubkey : Option String) :
    (handleLogin { s with loginStep := LoginStep.idle, storedWallet := none }
        ConnectResult.failure).1 = [LoginStep.connecting, LoginStep.idle] ∧
    ((handleLogin { s with loginStep := LoginStep.idle, storedWallet := none }
        ConnectResult.failure).2).loginStep = LoginStep.idle ∧
    ((handleLogin { s with loginStep := LoginStep.idle, storedWallet := none }
        ConnectResult.failure).2).storage = s.storage ∧
    ((handleLogin { s with loginStep := LoginStep.idle, storedWallet := none }
        ConnectResult.failure).2).storedWallet = none ∧
    ((handleLogin { s with loginStep := LoginStep.idle, storedWallet := none }
        ConnectResult.failure).2).connectCalls = s.connectCalls + 1 ∧
    ((handleLogin { s with loginStep := LoginStep.idle, storedWallet := none }
        ConnectResult.failure).2).loggedErrors = s.loggedErrors + 1 ∧
    (snapshotWrite false wallet smartWalletPubkey
        ((handleLogin
          { s with loginStep := LoginStep.idle, storedWallet := none }
          ConnectResult.failure).2)).storage
      = s.storage ∧
    (handleLoginBase { b with loginStep := LoginStep.idle }
        ConnectResult.failure).1 = [LoginStep.connecting, LoginStep.idle] ∧
    ((handleLoginBase { b with loginStep := LoginStep.idle }
        ConnectResult.failure).2).loginStep = LoginStep.idle := by
  refine ⟨rfl, rfl, rfl, rfl, rfl, rfl, ?_, rfl, rfl⟩
  cases wallet <;> rfl

/-- C5: writing a snapshot with address `"A1"` and pubkey `"P1"`, then
initialising a fresh controller against the same storage with the external
flag false, restores displayed state `connected` with displayed identity
`"A1"`, with the connect-call counter still at zero (connect never invoked). -/
theorem c5_snapshot_roundtrip :
    (snapshotWrite true (some ⟨some "A1"⟩) (some "P1")
        ⟨LoginStep.idle, none, none, 0, 0, 0⟩).storage
      = some (stringifyWallet ⟨some "A1", some "P1"⟩) ∧
    snapshotLoad ⟨LoginStep.idle, none,
        some (stringifyWallet ⟨some "A1", some "P1"⟩), 0, 0, 0⟩
      = Except.ok ⟨LoginStep.idle, some ⟨some "A1", some "P1"⟩,
          some (stringifyWallet ⟨some "A1", some "P1"⟩), 0, 0, 0⟩ ∧
    (runSync false
        ⟨LoginStep.idle, some ⟨some "A1", some "P1"⟩,
          some (stringifyWallet ⟨some "A1", some "P1"⟩), 0, 0, 0⟩).loginStep
      = LoginStep.connected ∧
    displayedIdentity (some ⟨some "A1", some "P1"⟩) none none = "A1" ∧
    (runSync false
        ⟨LoginStep.idle, some ⟨some "A1", some "P1"⟩,
          some (stringifyWallet ⟨some "A1", some "P1"⟩), 0, 0, 0⟩).connectCalls
      = 0 :=
  ⟨rfl, by rfl, rfl, by decide, rfl⟩

/-- C6 (storage frame condition): logout, login, the sync effect and the
snapshot-load effect all leave the stored record unchanged (logout also
leaves the in-memory snapshot unchanged — no delete-on-logout); the
snapshot-write effect is inert unless the flag is connected and a wallet
object is present, and in that case it is the one write path, storing the
full serialised record. -/
theorem c6_storage_frame (s : SState) (r : ConnectResult) (c : Bool)
    (wObj : Wallet) (wallet : Option Wallet)
    (smartWalletPubkey : Option String) :
    (handleLogout s).storage = s.storage ∧
    (handleLogout s).storedWallet = s.storedWallet ∧
    ((handleLogin s r).2).storage = s.storage ∧
    (runSync c s).storage = s.storage ∧
    (snapshotLoad s).map SState.storage
      = (snapshotLoad s).map (fun _ => s.storage) ∧
    (snapshotWrite false wallet smartWalletPubkey s).storage = s.storage ∧
    (snapshotWrite c none smartWalletPubkey s).storage = s.storage ∧
    (snapshotWrite true (some wObj) smartWalletPubkey s).storage
      = some (stringifyWallet ⟨wObj.smartWallet, smartWalletPubkey⟩) := by
  refine ⟨rfl, rfl, ?_, rfl, snapshotLoad_preserves_storage s, ?_, rfl, rfl⟩
  · obtain ⟨ls, sw, st, cc, dc, le⟩ := s
    cases sw <;> cases r <;> rfl
  · cases wallet <;> rfl

/-- C7: when the stored `"wallet"` string is present (and truthy) but fails
to parse, the snapshot-load step does not treat it as an absent snapshot: it
propagates the parse fault (there is no try/catch around `JSON.parse`). -/
theorem c7_malformed_snapshot_propagates (s : SState) (raw : String)
    (hs : s.storage = some raw) (hne : raw.isEmpty = false)
    (hp : parseWallet raw = none) :
    snapshotLoad s = Except.error "JSON.parse: unexpected token" := by
  unfold snapshotLoad
  rw [hs]
  simp [hne, hp]

/-- C7 witness: the concrete malformed stored string `"oops"` makes the load
step fault. -/
theorem c7_malformed_snapshot_witness :
    (⟨LoginStep.idle, none, some "oops", 0, 0, 0⟩ : SState).storage
      = some "oops" ∧
    ("oops").isEmpty = false ∧
    parseWallet "oops" = none ∧
    snapshotLoad ⟨LoginStep.idle, none, some "oops", 0, 0, 0⟩
      = Except.error "JSON.parse: unexpected token" :=
  ⟨rfl, rfl, by decide,
    c7_malformed_snapshot_propagates _ "oops" rfl rfl (by decide)⟩

/-- C8: with a connect request already outstanding (step `connecting`), the
login handler has no in-flight guard: the base variant handler has no
precondition check at all and issues another connect request, and the session
variant does the same whenever no stored snapshot is held — only a held
snapshot short-circuits it (no connect call then). -/
theorem c8_no_inflight_guard (b : BState) (s : SState) (r : ConnectResult)
    (w : StoredWallet) :
    ((handleLoginBase { b with loginStep := LoginStep.connecting }
        r).2).connectCalls = b.connectCalls + 1 ∧
    ((handleLogin
        { s with loginStep := LoginStep.connecting, storedWallet := none }
        r).2).connectCalls = s.connectCalls + 1 ∧
    ((handleLogin { s with storedWallet := some w } r).2).connectCalls
      = s.connectCalls := by
  cases r <;> exact ⟨rfl, rfl, rfl⟩

/-- C9 (implicit): whenever the in-memory stored-wallet record is non-null,
the reconciliation step sets the displayed state to `connected` regardless of
the external flag; logout clears neither the in-memory record nor the stored
one, so after logout the next reconciliation displays `connected` again. -/
theorem c9_snapshot_forces_connected (s : SState) (w : StoredWallet)
    (c : Bool) :
    (runSync c { s with storedWallet := some w }).loginStep
      = LoginStep.connected ∧
    (handleLogout s).storedWallet = s.storedWallet ∧
    (handleLogout s).storage = s.storage ∧
    (runSync false (handleLogout { s with storedWallet := some w })).loginStep
      = LoginStep.connected := by
  refine ⟨?_, rfl, rfl, rfl⟩
  cases c <;> rfl

/-- C10 (implicit): the snapshot write is guarded only by the flag being
connected and the wallet object being present; with the public key absent at
that moment a snapshot is still written whose pubkey field is absent while
its address field is present — both in memory and in the serialised stored
record. -/
theorem c10_partial_snapshot_written (s : SState) (a : String) :
    (snapshotWrite true (some ⟨some a⟩) none s).storedWallet
      = some ⟨some a, none⟩ ∧
    (snapshotWrite true (some ⟨some a⟩) none s).storage
      = some (stringifyWallet ⟨some a, none⟩) ∧
    (some (⟨some a, none⟩ : StoredWallet)).bind StoredWallet.smartWallet
      = some a ∧
    (some (⟨some a, none⟩ : StoredWallet)).bind StoredWallet.smartWalletPubkey
      = none :=
  ⟨rfl, rfl, rfl, rfl⟩

end LazorKitGuide
